import Mathlib

/- Formal model of the WorkletTest face-verification app.

The definitions below are shallow embeddings of the app's core routines:

* the vector matcher of the verify screen (src/unnamed/part_001,
  functions calculateEuclideanDistance and verifyFace);
* the user-record provider (src/src/utils/database.ts, functions
  isValidUser and getUsers);
* the Bluetooth gate link (src/unnamed/part_004, functions sendCommand,
  connectToESP32, disconnectFromESP32 and the inbound-data handler);
* the capture trigger inside the frame processor (src/unnamed/part_001,
  the auto-capture logic of frameProcessor);
* the verification pipeline (src/unnamed/part_001, captureAndVerify).

Modelling conventions: JavaScript numbers are modelled as real numbers
(floating-point rounding is not modelled); Date.now() timestamps are
integers (milliseconds); a thrown JS exception is an Except.error value;
React state updates and I/O become explicit fields of the returned
record (for example, the list of verification-log writes performed).
-/

/- ----------------------------------------------------------------- -/
/- Vector matcher (src/unnamed/part_001, lines 158 to 204)           -/
/- ----------------------------------------------------------------- -/

/-- Enrolled user record as held in the cachedUsers population. -/
structure User where
  userId : String
  embedding : List ℝ

/-- Result record of verifyFace; optional fields default to absent,
as in the source's VerificationResult interface. -/
structure VerificationResult where
  verified : Bool
  userId : Option String := none
  distance : Option ℝ := none
  message : Option String := none

/-- Sum of squared component differences: the reduce at part_001 line 163.
The source folds over emb1 indexing into emb2; under the length guard of
calculateEuclideanDistance this equals the zipWith sum. -/
noncomputable def sumSqDiff (emb1 emb2 : List ℝ) : ℝ :=
  (List.zipWith (fun a b => (a - b) ^ 2) emb1 emb2).sum

/-- Euclidean distance sqrt of the sum of squared differences. -/
noncomputable def euclidDist (emb1 emb2 : List ℝ) : ℝ :=
  Real.sqrt (sumSqDiff emb1 emb2)

/-- calculateEuclideanDistance (part_001 lines 158 to 165): throws on a
length mismatch, otherwise returns the Euclidean distance. -/
noncomputable def calculateEuclideanDistance (emb1 emb2 : List ℝ) :
    Except String ℝ :=
  if emb1.length ≠ emb2.length then
    Except.error ("Embedding length mismatch: " ++ toString emb1.length ++
      " vs " ++ toString emb2.length)
  else
    Except.ok (euclidDist emb1 emb2)

/-- The linear scan of verifyFace (part_001 lines 177 to 184).  The JS
accumulator starts at distance Infinity with a null user; that sentinel is
modelled as none, and the first computed distance always replaces it.  A
strictly smaller distance replaces the running closest match. -/
noncomputable def scanUsers (probe : List ℝ) :
    List User → Option (ℝ × User) → Except String (Option (ℝ × User))
  | [], best => Except.ok best
  | u :: rest, best =>
    match calculateEuclideanDistance probe u.embedding with
    | Except.error e => Except.error e
    | Except.ok d =>
      match best with
      | none => scanUsers probe rest (some (d, u))
      | some (bd, bu) =>
        if d < bd then scanUsers probe rest (some (d, u))
        else scanUsers probe rest (some (bd, bu))

/-- Number.prototype.toFixed(2) for the nonnegative distances produced by
the matcher: round to the nearest hundredth (half up) and print with two
decimal digits. -/
noncomputable def toFixed2 (x : ℝ) : String :=
  let n : ℕ := (⌊x * 100 + 1 / 2⌋).toNat
  toString (n / 100) ++ "." ++
    (if n % 100 < 10 then "0" ++ toString (n % 100) else toString (n % 100))

/-- verifyFace (part_001 lines 167 to 204).  The first component is the
returned VerificationResult; the second is the list of userIds written to
the VerificationLogs sink (the awaited logVerification call at line 188).
The catch-all of the source converts a thrown distance-computation error
into the "Error during verification" outcome.  The branch in which the
scan yields no candidate is unreachable for a nonempty population; there
the source would print the null user and Infinity. -/
noncomputable def verifyFace (newEmbedding : List ℝ) (cachedUsers : List User) :
    VerificationResult × List String :=
  if newEmbedding.length ≠ 128 then
    ({ verified := false,
       message := some ("Invalid embedding length: " ++ toString newEmbedding.length) }, [])
  else if cachedUsers.length = 0 then
    ({ verified := false, message := some "No users registered" }, [])
  else
    match scanUsers newEmbedding cachedUsers none with
    | Except.error _ =>
      ({ verified := false, message := some "Error during verification" }, [])
    | Except.ok none =>
      ({ verified := false,
         message := some "No match found (closest: undefined Infinity)" }, [])
    | Except.ok (some (d, u)) =>
      if d < 0.6 then
        ({ verified := true, userId := some u.userId, distance := some d },
         [u.userId])
      else
        ({ verified := false,
           message := some ("No match found (closest: " ++ u.userId ++ " " ++
             toFixed2 d ++ ")") }, [])

/- ----------------------------------------------------------------- -/
/- User-record provider (src/src/utils/database.ts)                  -/
/- ----------------------------------------------------------------- -/

/-- A JavaScript number as seen by the isFinite check: either a finite
value or one of the non-finite values. -/
inductive JSNum where
  | fin (q : ℚ)
  | posInf
  | negInf
  | nan
deriving DecidableEq

/-- Number.isFinite / global isFinite on a JSNum. -/
def JSNum.isFinite : JSNum → Bool
  | .fin _ => true
  | _ => false

/-- String.prototype.trim, written structurally on the character list. -/
def trimStr (s : String) : String :=
  String.mk (((s.data.dropWhile Char.isWhitespace).reverse.dropWhile
    Char.isWhitespace).reverse)

/-- isValidUser (database.ts lines 118 to 138).  The embedding argument is
none when the value is neither an array nor an array-like object with
positive length; otherwise it is the element list.  The source rejects an
empty userId (after trim), a non-array-like embedding, an empty embedding,
and any non-finite component. -/
def isValidUser (userId : String) (embedding : Option (List JSNum)) : Bool :=
  if trimStr userId = "" then false
  else
    match embedding with
    | none => false
    | some arr => !arr.isEmpty && arr.all JSNum.isFinite

/-- A row of the Users table as read back by getUsers: parsedEmbedding is
none when JSON.parse of the stored text throws. -/
structure DBRow where
  userId : String
  parsedEmbedding : Option (List JSNum)
deriving DecidableEq

/-- A user record produced by getUsers. -/
structure StoredUser where
  userId : String
  embedding : List JSNum
deriving DecidableEq

/-- getUsers (database.ts lines 200 to 231): every row whose embedding
parses is returned; a row whose JSON.parse throws is skipped (the catch
only logs).  No length or finiteness check is performed here. -/
def getUsers (rows : List DBRow) : List StoredUser :=
  rows.filterMap fun r =>
    r.parsedEmbedding.map fun e => { userId := r.userId, embedding := e }

/- ----------------------------------------------------------------- -/
/- Gate link (src/unnamed/part_004)                                  -/
/- ----------------------------------------------------------------- -/

/-- The mutable state of useBluetoothESP32: the isConnected and
isAuthenticated flags and whether the device handle is non-null. -/
structure BTLinkState where
  isConnected : Bool
  isAuthenticated : Bool
  hasDevice : Bool
deriving DecidableEq

/-- The spec's GateSession connectionState enumeration. -/
inductive ConnectionState where
  | disconnected
  | connectedUnauthenticated
  | authenticated
deriving DecidableEq

/-- The connection state of the link as a function of the hook's flags. -/
def connectionStateOf (s : BTLinkState) : ConnectionState :=
  if !s.isConnected then ConnectionState.disconnected
  else if !s.isAuthenticated then ConnectionState.connectedUnauthenticated
  else ConnectionState.authenticated

/-- String.prototype.startsWith, written structurally. -/
def strStartsWith (s p : String) : Bool :=
  p.data.isPrefixOf s.data

/-- sendCommand (part_004 lines 145 to 166).  The first component is the
locally reported result (the alert / console message), the second the list
of lines written to the transport.  Both guard branches return before any
transport write. -/
def sendCommand (command : String) (s : BTLinkState) : String × List String :=
  if !s.isConnected || !s.hasDevice then
    ("Not connected to ESP32", [])
  else if !s.isAuthenticated && !(strStartsWith command "AUTHENTICATE") then
    ("Must authenticate before sending commands", [])
  else
    ("Sent: " ++ command, [command ++ "\n"])

/-- Events that mutate the link state in part_004: a successful connect
(lines 83 to 88), a failed connect attempt (no state change), an inbound
line delivered to the onDataReceived handler (lines 90 to 104), and a
disconnect, explicit or from the unmount teardown (lines 120 to 135). -/
inductive BTEvent where
  | connectSuccess
  | connectFailure
  | dataReceived (line : String)
  | disconnect
deriving DecidableEq

/-- The onDataReceived handler (part_004 lines 90 to 104): the line is
trimmed; AUTH_SUCCESS sets isAuthenticated, AUTH_FAILED clears it,
NOT_AUTHENTICATED and unrecognized lines only log or alert. -/
def handleReceivedLine (s : BTLinkState) (raw : String) : BTLinkState :=
  let message := trimStr raw
  if message = "AUTH_SUCCESS" then { s with isAuthenticated := true }
  else if message = "AUTH_FAILED" then { s with isAuthenticated := false }
  else s

/-- One step of the link state machine.  The inbound listener is attached
to the connected device, so a dataReceived event has an effect only while
isConnected holds; disconnectFromESP32 resets all three fields but only
when a device is held and the link is connected (part_004 line 122),
otherwise it is a no-op. -/
def btStep (s : BTLinkState) : BTEvent → BTLinkState
  | BTEvent.connectSuccess => { s with isConnected := true, hasDevice := true }
  | BTEvent.connectFailure => s
  | BTEvent.dataReceived line =>
      if s.isConnected then handleReceivedLine s line else s
  | BTEvent.disconnect =>
      if s.hasDevice && s.isConnected then
        { isConnected := false, isAuthenticated := false, hasDevice := false }
      else s

/-- The hook's initial state: disconnected, unauthenticated, no device. -/
def initialLinkState : BTLinkState :=
  { isConnected := false, isAuthenticated := false, hasDevice := false }

/-- Run the link state machine from the initial state over an event
history. -/
def runBT (evs : List BTEvent) : BTLinkState :=
  evs.foldl btStep initialLinkState

/- ----------------------------------------------------------------- -/
/- Capture trigger (src/unnamed/part_001, lines 339 to 370)          -/
/- ----------------------------------------------------------------- -/

/-- A face detection as built by the frame processor. -/
structure FaceDetection where
  x : ℚ
  y : ℚ
  width : ℚ
  height : ℚ
  score : ℚ
deriving DecidableEq

/-- The eligibility predicate of the auto-capture logic (part_001 lines
353 to 365): centered within frameWidth times 0.2 of both frame centers,
width and height between frameWidth times 0.3 and frameWidth times 0.7,
and score above 0.7. -/
def validFacePred (frameWidth frameHeight : ℚ) (det : FaceDetection) : Bool :=
  (decide (|det.x + det.width / 2 - frameWidth / 2| < frameWidth * 0.2) &&
   decide (|det.y + det.height / 2 - frameHeight / 2| < frameWidth * 0.2)) &&
  (decide (det.width ≥ frameWidth * 0.3) && decide (det.width ≤ frameWidth * 0.7) &&
   decide (det.height ≥ frameWidth * 0.3) && decide (det.height ≤ frameWidth * 0.7)) &&
  decide (det.score > 0.7)

/-- The capture-trigger decision of frameProcessor (part_001 lines 339 to
370): none when the detection list is empty, none while the 3000 ms
cooldown since the last capture has not elapsed, and otherwise a capture
event timestamped now exactly when some detection passes the eligibility
predicate; detections.find picks the first such detection. -/
def captureTrigger (detections : List FaceDetection)
    (frameWidth frameHeight : ℚ) (lastCaptureTime now : ℤ) : Option ℤ :=
  if detections.length = 0 then none
  else if now - lastCaptureTime < 3000 then none
  else if (detections.find? (validFacePred frameWidth frameHeight)).isSome then
    some now
  else none

/-- Repeated trigger evaluations as driven by the frame processor: on a
fire the driver stores now into lastCaptureTime (part_001 line 368) before
the next evaluation.  Returns the list of fire timestamps. -/
def runTrigger (frameWidth frameHeight : ℚ) :
    ℤ → List (List FaceDetection × ℤ) → List ℤ
  | _, [] => []
  | last, frame :: rest =>
    match captureTrigger frame.1 frameWidth frameHeight last frame.2 with
    | some t => t :: runTrigger frameWidth frameHeight t rest
    | none => runTrigger frameWidth frameHeight last rest

/- ----------------------------------------------------------------- -/
/- Verification pipeline (src/unnamed/part_001, lines 206 to 278)    -/
/- ----------------------------------------------------------------- -/

/-- Outcomes of the external collaborators used inside the try block of
captureAndVerify: photo capture, image resize, file read plus JPEG decode,
and the embedding-model inference.  An error value models a thrown
exception in that step. -/
structure PipelineEnv where
  photo : Except String Unit
  resizedImage : Except String Unit
  decodedImage : Except String Unit
  inference : Except String (List ℝ)

/-- The sequential collaborator steps of the try block: the first failure
aborts the rest, as a thrown exception would. -/
def pipelineSteps (env : PipelineEnv) : Except String (List ℝ) :=
  env.photo.bind fun _ =>
    env.resizedImage.bind fun _ =>
      env.decodedImage.bind fun _ => env.inference

/-- The component state touched by captureAndVerify on exit. -/
structure PipelineState where
  isScanning : Bool
  status : String
  error : Option String
  sinkWrites : List String
  sentCommands : List String

/-- captureAndVerify (part_001 lines 206 to 278).  The guard returns
untouched state when no camera is mounted or a scan is in flight; a
dispatched run sets isScanning, runs the collaborator steps, verifies, and
the finally block clears isScanning on every path.  A thrown collaborator
error is caught and becomes the "Error during verification" status with
the error message stored.  The success status drops the source's elapsed
milliseconds suffix (wall-clock time is not modelled). -/
noncomputable def captureAndVerify (cameraPresent isScanning0 : Bool)
    (isConnected isAuthenticated : Bool) (env : PipelineEnv)
    (cachedUsers : List User) (status0 : String) : PipelineState :=
  if !cameraPresent || isScanning0 then
    { isScanning := isScanning0, status := status0, error := none,
      sinkWrites := [], sentCommands := [] }
  else
    match pipelineSteps env with
    | Except.error msg =>
      { isScanning := false, status := "Error during verification",
        error := some msg, sinkWrites := [], sentCommands := [] }
    | Except.ok embedding =>
      if (verifyFace embedding cachedUsers).1.verified &&
          (verifyFace embedding cachedUsers).1.userId.isSome then
        { isScanning := false,
          status := "Verified: " ++
            ((verifyFace embedding cachedUsers).1.userId.getD ""),
          error := none,
          sinkWrites := (verifyFace embedding cachedUsers).2,
          sentCommands :=
            if isConnected && isAuthenticated then ["FACE_DETECTED"] else [] }
      else
        { isScanning := false,
          status := (verifyFace embedding cachedUsers).1.message.getD
            "Verification failed",
          error := none,
          sinkWrites := (verifyFace embedding cachedUsers).2,
          sentCommands := [] }

/- Concrete inputs reused by evaluation lemmas and witnesses. -/

/-- An all-zero probe embedding of length 128. -/
def probe0 : List ℝ := List.replicate 128 0

/-- A single enrolled user whose embedding equals probe0. -/
def aliceUser : User := { userId := "alice", embedding := probe0 }

/- ----------------------------------------------------------------- -/
/- Helper lemmas for the vector matcher                              -/
/- ----------------------------------------------------------------- -/

/-- A vector is at squared distance zero from itself. -/
lemma sumSqDiff_self (v : List ℝ) : sumSqDiff v v = 0 := by
  induction v with
  | nil => simp [sumSqDiff]
  | cons a l ih =>
    simp only [sumSqDiff, List.zipWith_cons_cons, List.sum_cons] at *
    simp [ih]

/-- calculateEuclideanDistance succeeds on equal-length embeddings. -/
lemma calculateEuclideanDistance_ok {emb1 emb2 : List ℝ}
    (h : emb2.length = emb1.length) :
    calculateEuclideanDistance emb1 emb2 = Except.ok (euclidDist emb1 emb2) := by
  simp [calculateEuclideanDistance, h]

/-- Invariant of the linear scan with a nonempty accumulator: the scan
succeeds, the result is at most the accumulator and at most every scanned
user's distance, and it is either the untouched accumulator (every scanned
distance at least the accumulator) or the first scanned user strictly
better than both the accumulator and every user before it. -/
lemma scanUsers_acc (probe : List ℝ) :
    ∀ (l : List User) (bd : ℝ) (bu : User),
      (∀ u ∈ l, u.embedding.length = probe.length) →
      ∃ d w, scanUsers probe l (some (bd, bu)) = Except.ok (some (d, w)) ∧
        d ≤ bd ∧ (∀ v ∈ l, d ≤ euclidDist probe v.embedding) ∧
        ((d = bd ∧ w = bu) ∨
          ∃ pre post, l = pre ++ w :: post ∧
            euclidDist probe w.embedding = d ∧ d < bd ∧
            ∀ v ∈ pre, d < euclidDist probe v.embedding) := by
  intro l
  induction l with
  | nil =>
    intro bd bu _
    exact ⟨bd, bu, rfl, le_refl _, by simp, Or.inl ⟨rfl, rfl⟩⟩
  | cons u rest ih =>
    intro bd bu hlen
    have hu : u.embedding.length = probe.length := hlen u (by simp)
    have hcalc := calculateEuclideanDistance_ok hu
    have hrest : ∀ v ∈ rest, v.embedding.length = probe.length :=
      fun v hv => hlen v (List.mem_cons_of_mem _ hv)
    by_cases hlt : euclidDist probe u.embedding < bd
    · have hscan : scanUsers probe (u :: rest) (some (bd, bu)) =
          scanUsers probe rest (some (euclidDist probe u.embedding, u)) := by
        simp [scanUsers, hcalc, hlt]
      obtain ⟨d, w, heq, hdle, hmin, hcase⟩ :=
        ih (euclidDist probe u.embedding) u hrest
      refine ⟨d, w, hscan ▸ heq, hdle.trans hlt.le, ?_, Or.inr ?_⟩
      · intro v hv
        rcases List.mem_cons.mp hv with rfl | hv'
        · exact hdle
        · exact hmin v hv'
      · rcases hcase with ⟨hd, hw⟩ | ⟨pre, post, hsplit, hdw, hdlt, hpre⟩
        · refine ⟨[], rest, by simp [hw], ?_, hd ▸ hlt, by simp⟩
          rw [hw, hd]
        · refine ⟨u :: pre, post, by simp [hsplit], hdw, hdlt.trans hlt, ?_⟩
          intro v hv
          rcases List.mem_cons.mp hv with rfl | hv'
          · exact hdlt
          · exact hpre v hv'
    · have hge : bd ≤ euclidDist probe u.embedding := not_lt.mp hlt
      have hscan : scanUsers probe (u :: rest) (some (bd, bu)) =
          scanUsers probe rest (some (bd, bu)) := by
        simp [scanUsers, hcalc, hlt]
      obtain ⟨d, w, heq, hdle, hmin, hcase⟩ := ih bd bu hrest
      refine ⟨d, w, hscan ▸ heq, hdle, ?_, ?_⟩
      · intro v hv
        rcases List.mem_cons.mp hv with rfl | hv'
        · exact hdle.trans hge
        · exact hmin v hv'
      · rcases hcase with ⟨hd, hw⟩ | ⟨pre, post, hsplit, hdw, hdlt, hpre⟩
        · exact Or.inl ⟨hd, hw⟩
        · refine Or.inr ⟨u :: pre, post, by simp [hsplit], hdw, hdlt, ?_⟩
          intro v hv
          rcases List.mem_cons.mp hv with rfl | hv'
          · exact hdlt.trans_le hge
          · exact hpre v hv'

/-- The scan of a nonempty population of probe-length embeddings succeeds
and returns the first user attaining the minimal distance. -/
lemma scanUsers_none_spec (probe : List ℝ) (l : List User) (hne : l ≠ [])
    (hlen : ∀ u ∈ l, u.embedding.length = probe.length) :
    ∃ d w, scanUsers probe l none = Except.ok (some (d, w)) ∧
      euclidDist probe w.embedding = d ∧
      (∀ v ∈ l, d ≤ euclidDist probe v.embedding) ∧
      ∃ pre post, l = pre ++ w :: post ∧
        ∀ v ∈ pre, d < euclidDist probe v.embedding := by
  cases l with
  | nil => exact absurd rfl hne
  | cons u rest =>
    have hu : u.embedding.length = probe.length := hlen u (by simp)
    have hcalc := calculateEuclideanDistance_ok hu
    have hrest : ∀ v ∈ rest, v.embedding.length = probe.length :=
      fun v hv => hlen v (List.mem_cons_of_mem _ hv)
    have hscan : scanUsers probe (u :: rest) none =
        scanUsers probe rest (some (euclidDist probe u.embedding, u)) := by
      simp [scanUsers, hcalc]
    obtain ⟨d, w, heq, hdle, hmin, hcase⟩ :=
      scanUsers_acc probe rest (euclidDist probe u.embedding) u hrest
    rcases hcase with ⟨hd, hw⟩ | ⟨pre, post, hsplit, hdw, hdlt, hpre⟩
    · refine ⟨d, w, hscan ▸ heq, by rw [hw, hd], ?_, [], rest, by simp [hw], by simp⟩
      intro v hv
      rcases List.mem_cons.mp hv with rfl | hv'
      · exact hd.le
      · exact hmin v hv'
    · refine ⟨d, w, hscan ▸ heq, hdw, ?_, u :: pre, post, by simp [hsplit], ?_⟩
      · intro v hv
        rcases List.mem_cons.mp hv with rfl | hv'
        · exact hdle
        · exact hmin v hv'
      · intro v hv
        rcases List.mem_cons.mp hv with rfl | hv'
        · exact hdlt
        · exact hpre v hv'

/-- Reduction of verifyFace on a valid probe once the scan result is
known. -/
lemma verifyFace_eq_of_scan {probe : List ℝ} {users : List User} {d : ℝ}
    {w : User} (hlen : probe.length = 128) (hne : users ≠ [])
    (hscan : scanUsers probe users none = Except.ok (some (d, w))) :
    verifyFace probe users =
      if d < 0.6 then
        ({ verified := true, userId := some w.userId, distance := some d },
         [w.userId])
      else
        ({ verified := false,
           message := some ("No match found (closest: " ++ w.userId ++ " " ++
             toFixed2 d ++ ")") }, []) := by
  have h1 : ¬(probe.length ≠ 128) := by simp [hlen]
  have h2 : ¬(users.length = 0) := by simp [List.length_eq_zero, hne]
  unfold verifyFace
  rw [if_neg h1, if_neg h2, hscan]

/-- Evaluation of the matcher on a probe equal to the single enrolled
embedding: distance 0, verified, one sink write. -/
lemma verifyFace_probe0_eval :
    verifyFace probe0 [aliceUser] =
      ({ verified := true, userId := some "alice", distance := some 0 },
       ["alice"]) := by
  have hlen : probe0.length = 128 := by simp [probe0]
  have hdist : euclidDist probe0 aliceUser.embedding = 0 := by
    simp [euclidDist, aliceUser, sumSqDiff_self]
  have hcalc : calculateEuclideanDistance probe0 aliceUser.embedding =
      Except.ok 0 := by
    rw [calculateEuclideanDistance_ok (by simp [aliceUser]), hdist]
  have hscan : scanUsers probe0 [aliceUser] none =
      Except.ok (some (0, aliceUser)) := by
    simp [scanUsers, hcalc]
  have h06 : (0 : ℝ) < 0.6 := by norm_num
  rw [verifyFace_eq_of_scan hlen (by simp) hscan, if_pos h06]
  rfl

/-- Claim C1: for every probe embedding of length 128 and every nonempty
population of enrolled users (all embeddings of length 128), the matcher's
linear scan succeeds and selects a user of the population attaining the
globally minimal Euclidean distance to the probe; on ties the
first-encountered user in population order is selected (every user
strictly earlier in the list is at strictly greater distance); and when
verifyFace reports a verified outcome it reports exactly this user and
this distance. -/
theorem match_returns_global_min (probe : List ℝ) (users : List User)
    (hlen : probe.length = 128) (hne : users ≠ [])
    (hpop : ∀ u ∈ users, u.embedding.length = 128) :
    ∃ d w, scanUsers probe users none = Except.ok (some (d, w)) ∧
      w ∈ users ∧
      euclidDist probe w.embedding = d ∧
      (∀ v ∈ users, d ≤ euclidDist probe v.embedding) ∧
      (∃ pre post, users = pre ++ w :: post ∧
        ∀ v ∈ pre, d < euclidDist probe v.embedding) ∧
      ((verifyFace probe users).1.verified = true →
        (verifyFace probe users).1.userId = some w.userId ∧
        (verifyFace probe users).1.distance = some d) := by
  have hpop' : ∀ u ∈ users, u.embedding.length = probe.length := by
    intro u hu; rw [hlen]; exact hpop u hu
  obtain ⟨d, w, hscan, hdw, hmin, pre, post, hsplit, hpre⟩ :=
    scanUsers_none_spec probe users hne hpop'
  have hmem : w ∈ users := by rw [hsplit]; simp
  refine ⟨d, w, hscan, hmem, hdw, hmin, ⟨pre, post, hsplit, hpre⟩, ?_⟩
  rw [verifyFace_eq_of_scan hlen hne hscan]
  by_cases hd : d < 0.6
  · rw [if_pos hd]; intro _; exact ⟨rfl, rfl⟩
  · rw [if_neg hd]; intro h; simp at h

/-- Witness for C1 at a concrete input: the all-zero probe against the
single enrolled user alice. -/
theorem match_returns_global_min_witness :
    probe0.length = 128 ∧ ([aliceUser] : List User) ≠ [] ∧
    (∃ d w, scanUsers probe0 [aliceUser] none = Except.ok (some (d, w)) ∧
      w ∈ [aliceUser] ∧
      euclidDist probe0 w.embedding = d ∧
      (∀ v ∈ [aliceUser], d ≤ euclidDist probe0 v.embedding) ∧
      (∃ pre post, [aliceUser] = pre ++ w :: post ∧
        ∀ v ∈ pre, d < euclidDist probe0 v.embedding) ∧
      ((verifyFace probe0 [aliceUser]).1.verified = true →
        (verifyFace probe0 [aliceUser]).1.userId = some w.userId ∧
        (verifyFace probe0 [aliceUser]).1.distance = some d)) :=
  ⟨by simp [probe0], by simp,
    match_returns_global_min probe0 [aliceUser] (by simp [probe0]) (by simp)
      (by intro u hu; rw [List.mem_singleton] at hu; subst hu
          simp [aliceUser, probe0])⟩

/-- Claim C2: for a 128-length probe and a nonempty population of
128-length embeddings, verifyFace returns a verified outcome carrying the
closest user's id and distance exactly when the minimal distance is
strictly below 0.6, and otherwise an unverified outcome whose message
names the closest candidate and its distance formatted to two decimals. -/
theorem match_threshold_decision (probe : List ℝ) (users : List User)
    (hlen : probe.length = 128) (hne : users ≠ [])
    (hpop : ∀ u ∈ users, u.embedding.length = 128) :
    ∃ d w, scanUsers probe users none = Except.ok (some (d, w)) ∧
      (∀ v ∈ users, d ≤ euclidDist probe v.embedding) ∧
      (d < 0.6 →
        verifyFace probe users =
          ({ verified := true, userId := some w.userId, distance := some d },
           [w.userId])) ∧
      (0.6 ≤ d →
        verifyFace probe users =
          ({ verified := false,
             message := some ("No match found (closest: " ++ w.userId ++ " " ++
               toFixed2 d ++ ")") }, [])) := by
  have hpop' : ∀ u ∈ users, u.embedding.length = probe.length := by
    intro u hu; rw [hlen]; exact hpop u hu
  obtain ⟨d, w, hscan, _, hmin, _⟩ :=
    scanUsers_none_spec probe users hne hpop'
  refine ⟨d, w, hscan, hmin, ?_, ?_⟩
  · intro hd
    rw [verifyFace_eq_of_scan hlen hne hscan, if_pos hd]
  · intro hd
    rw [verifyFace_eq_of_scan hlen hne hscan, if_neg (not_lt.mpr hd)]

/-- Witness for C2 at a concrete input: the all-zero probe against the
single enrolled user alice. -/
theorem match_threshold_decision_witness :
    probe0.length = 128 ∧ ([aliceUser] : List User) ≠ [] ∧
    (∃ d w, scanUsers probe0 [aliceUser] none = Except.ok (some (d, w)) ∧
      (∀ v ∈ [aliceUser], d ≤ euclidDist probe0 v.embedding) ∧
      (d < 0.6 →
        verifyFace probe0 [aliceUser] =
          ({ verified := true, userId := some w.userId, distance := some d },
           [w.userId])) ∧
      (0.6 ≤ d →
        verifyFace probe0 [aliceUser] =
          ({ verified := false,
             message := some ("No match found (closest: " ++ w.userId ++ " " ++
               toFixed2 d ++ ")") }, []))) :=
  ⟨by simp [probe0], by simp,
    match_threshold_decision probe0 [aliceUser] (by simp [probe0]) (by simp)
      (by intro u hu; rw [List.mem_singleton] at hu; subst hu
          simp [aliceUser, probe0])⟩

/-- Claim C4, counterexample: the matcher is not free of sink writes.  On
a verified outcome verifyFace itself awaits logVerification (part_001 line
188): with the probe equal to the single enrolled embedding the verified
outcome is produced and one verification event is written by the matcher,
so its write list is nonempty. -/
theorem matcher_writes_sink_counterexample :
    (verifyFace probe0 [aliceUser]).2 ≠ [] := by
  rw [verifyFace_probe0_eval]
  simp

/-- Claim C4, amended: verifyFace is deterministic (it is a function of
the probe and population), but on a verified outcome the matcher itself
writes exactly one verification event, the matched user's id, to the event
sink; on every unverified outcome it performs no sink write. -/
theorem matcher_sink_writes (probe : List ℝ) (users : List User) :
    ((verifyFace probe users).1.verified = false →
      (verifyFace probe users).2 = []) ∧
    ((verifyFace probe users).1.verified = true →
      ∃ uid, (verifyFace probe users).1.userId = some uid ∧
        (verifyFace probe users).2 = [uid]) := by
  unfold verifyFace
  split_ifs with h1 h2
  · exact ⟨fun _ => rfl, fun h => by simp at h⟩
  · exact ⟨fun _ => rfl, fun h => by simp at h⟩
  · cases hs : scanUsers probe users none with
    | error e => simp
    | ok o =>
      cases o with
      | none => simp
      | some p =>
        obtain ⟨d, u⟩ := p
        by_cases hd : d < 0.6
        · simp [hd]
        · simp [hd]

/-- Witness for the amended C4: a concrete verified run whose single sink
write is the matched user's id. -/
theorem matcher_sink_writes_witness :
    (verifyFace probe0 [aliceUser]).1.verified = true ∧
    (∃ uid, (verifyFace probe0 [aliceUser]).1.userId = some uid ∧
      (verifyFace probe0 [aliceUser]).2 = [uid]) :=
  have hv : (verifyFace probe0 [aliceUser]).1.verified = true := by
    rw [verifyFace_probe0_eval]
  ⟨hv, (matcher_sink_writes probe0 [aliceUser]).2 hv⟩

/-- Claim C6: a probe whose length is not 128 is rejected up front, for
every population (empty or not): verifyFace returns an unverified outcome
carrying the length-mismatch message and performs no sink write; the
branch returns before anything can throw. -/
theorem match_invalid_length (probe : List ℝ) (users : List User)
    (h : probe.length ≠ 128) :
    verifyFace probe users =
      ({ verified := false,
         message := some ("Invalid embedding length: " ++
           toString probe.length) }, []) := by
  unfold verifyFace
  rw [if_pos h]

/-- Witness for C6: the empty probe against the empty population. -/
theorem match_invalid_length_witness :
    (([] : List ℝ).length ≠ 128) ∧
    verifyFace [] [] =
      ({ verified := false,
         message := some ("Invalid embedding length: " ++
           toString (([] : List ℝ)).length) }, []) :=
  ⟨by decide, match_invalid_length [] [] (by decide)⟩

/-- Claim C5, counterexample: the length-128 and finiteness invariant is
not enforced on the matching population.  A record with a length-1 finite
embedding passes isValidUser (so saveUser accepts it) and is returned by
getUsers, hence reaches the population used by match with an embedding
length different from 128. -/
theorem population_invariant_counterexample :
    isValidUser "bob" (some [JSNum.fin 1]) = true ∧
    ∃ u ∈ getUsers [{ userId := "bob", parsedEmbedding := some [JSNum.fin 1] }],
      u.embedding.length ≠ 128 := by
  constructor
  · decide
  · exact ⟨{ userId := "bob", embedding := [JSNum.fin 1] }, by decide, by decide⟩

/-- Claim C5, amended: save-time validation (isValidUser) requires only a
non-blank userId, a non-empty embedding and finite components, not length
128; and getUsers excludes a stored record from the matching population
exactly when its embedding text fails to parse, so records of any positive
embedding length can appear in the population used by match. -/
theorem population_membership_characterization :
    (∀ (rows : List DBRow) (u : StoredUser),
      u ∈ getUsers rows ↔
        ∃ r ∈ rows, r.userId = u.userId ∧
          r.parsedEmbedding = some u.embedding) ∧
    (∀ (uid : String) (emb : List JSNum),
      isValidUser uid (some emb) = true ↔
        (trimStr uid ≠ "" ∧ emb ≠ [] ∧ emb.all JSNum.isFinite = true)) := by
  constructor
  · intro rows u
    obtain ⟨uid, emb⟩ := u
    simp only [getUsers, List.mem_filterMap, Option.map_eq_some',
      StoredUser.mk.injEq]
    constructor
    · rintro ⟨r, hr, e, he, h1, h2⟩
      exact ⟨r, hr, h1, by rw [he, h2]⟩
    · rintro ⟨r, hr, h1, h2⟩
      exact ⟨r, hr, emb, h2, h1, rfl⟩
  · intro uid emb
    by_cases h : trimStr uid = ""
    · simp [isValidUser, h]
    · cases emb with
      | nil => simp [isValidUser, h]
      | cons a l => simp [isValidUser, h]

/-- Witness for the amended C5 at a concrete row list. -/
theorem population_membership_characterization_witness :
    ((({ userId := "bob", embedding := [JSNum.fin 1] } : StoredUser) ∈
        getUsers [{ userId := "bob", parsedEmbedding := some [JSNum.fin 1] }]) ↔
      ∃ r ∈ ([{ userId := "bob", parsedEmbedding := some [JSNum.fin 1] }] :
          List DBRow),
        r.userId = "bob" ∧ r.parsedEmbedding = some [JSNum.fin 1]) :=
  population_membership_characterization.1
    [{ userId := "bob", parsedEmbedding := some [JSNum.fin 1] }]
    { userId := "bob", embedding := [JSNum.fin 1] }

/-- Claim C3, counterexample: while the link is Disconnected (a state in
which connectionState differs from Authenticated), sending a
non-authenticate command is indeed rejected with no transport write, but
the locally reported result is the not-connected message, not the
not-authenticated one. -/
theorem send_unauthenticated_counterexample :
    (strStartsWith "FACE_DETECTED" "AUTHENTICATE" = false) ∧
    connectionStateOf
        { isConnected := false, isAuthenticated := false, hasDevice := false } ≠
      ConnectionState.authenticated ∧
    (sendCommand "FACE_DETECTED"
        { isConnected := false, isAuthenticated := false, hasDevice := false }).2
      = [] ∧
    (sendCommand "FACE_DETECTED"
        { isConnected := false, isAuthenticated := false, hasDevice := false }).1
      ≠ "Must authenticate before sending commands" := by
  refine ⟨by decide, by decide, by decide, by decide⟩

/-- Claim C3, amended: while connectionState differs from Authenticated,
sending a command that does not start with the authenticate verb performs
no transport write; when the link is connected and holds a device the
locally reported result is the must-authenticate message, and otherwise it
is the not-connected message. -/
theorem send_rejected_locally (command : String) (s : BTLinkState)
    (hcmd : strStartsWith command "AUTHENTICATE" = false)
    (hstate : connectionStateOf s ≠ ConnectionState.authenticated) :
    (sendCommand command s).2 = [] ∧
    (s.isConnected = true ∧ s.hasDevice = true →
      (sendCommand command s).1 = "Must authenticate before sending commands") ∧
    (¬(s.isConnected = true ∧ s.hasDevice = true) →
      (sendCommand command s).1 = "Not connected to ESP32") := by
  obtain ⟨c, a, d⟩ := s
  cases c <;> cases a <;> cases d <;>
    simp_all [sendCommand, connectionStateOf]

/-- Witness for the amended C3: a connected but unauthenticated link. -/
theorem send_rejected_locally_witness :
    (strStartsWith "FACE_DETECTED" "AUTHENTICATE" = false) ∧
    connectionStateOf
        { isConnected := true, isAuthenticated := false, hasDevice := true } ≠
      ConnectionState.authenticated ∧
    ((sendCommand "FACE_DETECTED"
        { isConnected := true, isAuthenticated := false, hasDevice := true }).2
        = [] ∧
      (({ isConnected := true, isAuthenticated := false, hasDevice := true } :
          BTLinkState).isConnected = true ∧
        ({ isConnected := true, isAuthenticated := false, hasDevice := true } :
          BTLinkState).hasDevice = true →
        (sendCommand "FACE_DETECTED"
          { isConnected := true, isAuthenticated := false, hasDevice := true }).1
          = "Must authenticate before sending commands") ∧
      (¬(({ isConnected := true, isAuthenticated := false, hasDevice := true } :
          BTLinkState).isConnected = true ∧
        ({ isConnected := true, isAuthenticated := false, hasDevice := true } :
          BTLinkState).hasDevice = true) →
        (sendCommand "FACE_DETECTED"
          { isConnected := true, isAuthenticated := false, hasDevice := true }).1
          = "Not connected to ESP32")) :=
  ⟨by decide, by decide,
    send_rejected_locally "FACE_DETECTED"
      { isConnected := true, isAuthenticated := false, hasDevice := true }
      (by decide) (by decide)⟩

/-- The invariant of the link state machine: authentication implies an
open connection.  Preserved by every event. -/
lemma btStep_preserves_auth_implies_conn (s : BTLinkState) (e : BTEvent)
    (h : s.isAuthenticated = true → s.isConnected = true) :
    (btStep s e).isAuthenticated = true → (btStep s e).isConnected = true := by
  cases e with
  | connectSuccess => intro _; rfl
  | connectFailure => exact h
  | dataReceived line =>
    by_cases hc : s.isConnected = true
    · simp only [btStep, hc, if_true]
      simp only [handleReceivedLine]
      split_ifs <;> simp [hc]
    · simp only [btStep]
      rw [if_neg (by simpa using hc)]
      exact h
  | disconnect =>
    simp only [btStep]
    split_ifs with hd
    · intro hfalse; simp at hfalse
    · exact h

/-- Claim C10: in every state reachable by the gate link from its initial
state over any event history, authenticated implies connected; the only
event that sets isAuthenticated is an AUTH_SUCCESS line delivered while
connected, and a disconnect resets both flags, so no reachable state is
authenticated while disconnected. -/
theorem authenticated_implies_connected (evs : List BTEvent) :
    (runBT evs).isAuthenticated = true → (runBT evs).isConnected = true := by
  have hgen : ∀ (l : List BTEvent) (s : BTLinkState),
      (s.isAuthenticated = true → s.isConnected = true) →
      ((l.foldl btStep s).isAuthenticated = true →
        (l.foldl btStep s).isConnected = true) := by
    intro l
    induction l with
    | nil => intro s h; exact h
    | cons e rest ih =>
      intro s h
      exact ih (btStep s e) (btStep_preserves_auth_implies_conn s e h)
  exact hgen evs initialLinkState (by intro h; simp [initialLinkState] at h)

/-- Witness for C10: after a successful connect and an AUTH_SUCCESS line,
the link is authenticated and, by the theorem, connected. -/
theorem authenticated_implies_connected_witness :
    (runBT [BTEvent.connectSuccess, BTEvent.dataReceived "AUTH_SUCCESS"]).isAuthenticated
      = true ∧
    (runBT [BTEvent.connectSuccess, BTEvent.dataReceived "AUTH_SUCCESS"]).isConnected
      = true :=
  ⟨by decide,
    authenticated_implies_connected
      [BTEvent.connectSuccess, BTEvent.dataReceived "AUTH_SUCCESS"] (by decide)⟩

/-- A fired trigger is timestamped now and the cooldown had elapsed. -/
lemma captureTrigger_fire {dets : List FaceDetection} {fw fh : ℚ}
    {last now t : ℤ} (h : captureTrigger dets fw fh last now = some t) :
    t = now ∧ 3000 ≤ now - last := by
  unfold captureTrigger at h
  split_ifs at h with h1 h2 h3
  injection h with h'
  subst h'
  exact ⟨rfl, not_lt.mp h2⟩

/-- Consecutive fires of the trigger, with the driver storing each fire
time into lastCaptureTime, are at least 3000 ms apart, and every fire is
at least 3000 ms after the incoming lastCaptureTime. -/
lemma runTrigger_spec (fw fh : ℚ) :
    ∀ (frames : List (List FaceDetection × ℤ)) (last : ℤ),
      List.Chain' (fun t1 t2 => t1 + 3000 ≤ t2) (runTrigger fw fh last frames) ∧
      ∀ t ∈ runTrigger fw fh last frames, last + 3000 ≤ t := by
  intro frames
  induction frames with
  | nil => intro last; simp [runTrigger]
  | cons frame rest ih =>
    intro last
    cases h : captureTrigger frame.1 fw fh last frame.2 with
    | none =>
      have hr : runTrigger fw fh last (frame :: rest) =
          runTrigger fw fh last rest := by
        simp [runTrigger, h]
      rw [hr]; exact ih last
    | some t =>
      obtain ⟨ht, hcd⟩ := captureTrigger_fire h
      have hr : runTrigger fw fh last (frame :: rest) =
          t :: runTrigger fw fh t rest := by
        simp [runTrigger, h]
      rw [hr]
      obtain ⟨hchain, hmem⟩ := ih t
      constructor
      · rw [List.chain'_cons']
        refine ⟨?_, hchain⟩
        intro b hb
        have hb' : b ∈ runTrigger fw fh t rest := by
          cases hrt : runTrigger fw fh t rest with
          | nil => rw [hrt] at hb; simp at hb
          | cons y ys =>
            rw [hrt] at hb
            simp at hb
            simp [hb]
        exact hmem b hb'
      · intro x hx
        rcases List.mem_cons.mp hx with rfl | hx'
        · subst ht; linarith
        · have := hmem x hx'
          subst ht; linarith

/-- Claim C7: the capture trigger returns none whenever less than 3000 ms
have elapsed since lastCaptureTimestamp, regardless of detection quality;
consequently, over any sequence of evaluations with monotonically
increasing timestamps in which the driver stores each fire time, no two
fires are less than 3000 ms apart. -/
theorem capture_cooldown_no_refire :
    (∀ (dets : List FaceDetection) (fw fh : ℚ) (last now : ℤ),
      now - last < 3000 → captureTrigger dets fw fh last now = none) ∧
    (∀ (fw fh : ℚ) (last : ℤ) (frames : List (List FaceDetection × ℤ)),
      List.Chain' (fun f1 f2 => f1.2 < f2.2) frames →
      List.Chain' (fun t1 t2 => t1 + 3000 ≤ t2) (runTrigger fw fh last frames)) := by
  constructor
  · intro dets fw fh last now hcd
    unfold captureTrigger
    split_ifs <;> rfl
  · intro fw fh last frames _
    exact (runTrigger_spec fw fh frames last).1

/-- A concrete eligible detection in a 100 by 100 frame: centered, sized
within bounds, confident. -/
def goodDet : FaceDetection :=
  { x := 30, y := 30, width := 40, height := 40, score := 0.9 }

/-- A concrete ineligible detection: too small. -/
def smallDet : FaceDetection :=
  { x := 0, y := 0, width := 10, height := 10, score := 0.9 }

/-- Witness for C7: a cooldown rejection and a three-frame run with
increasing timestamps. -/
theorem capture_cooldown_no_refire_witness :
    ((0 : ℤ) - 0 < 3000 ∧ captureTrigger [goodDet] 100 100 0 0 = none) ∧
    (List.Chain' (fun f1 f2 => f1.2 < f2.2)
        ([([goodDet], 1000), ([goodDet], 2000), ([goodDet], 5000)] :
          List (List FaceDetection × ℤ)) ∧
      List.Chain' (fun t1 t2 => t1 + 3000 ≤ t2)
        (runTrigger 100 100 0
          [([goodDet], 1000), ([goodDet], 2000), ([goodDet], 5000)])) :=
  ⟨⟨by decide, capture_cooldown_no_refire.1 [goodDet] 100 100 0 0 (by decide)⟩,
    ⟨by norm_num [List.chain'_cons],
      capture_cooldown_no_refire.2 100 100 0
        [([goodDet], 1000), ([goodDet], 2000), ([goodDet], 5000)]
        (by norm_num [List.chain'_cons])⟩⟩

/-- The first item of a list satisfying a Boolean predicate, as a prefix
decomposition of find?. -/
lemma find?_first_decomp {α : Type} (p : α → Bool) :
    ∀ (l : List α) (a : α), l.find? p = some a →
      ∃ pre post, l = pre ++ a :: post ∧ ∀ e ∈ pre, p e = false := by
  intro l
  induction l with
  | nil => intro a h; simp at h
  | cons x rest ih =>
    intro a h
    by_cases hx : p x
    · rw [List.find?_cons_of_pos _ hx] at h
      cases h
      exact ⟨[], rest, rfl, by simp⟩
    · rw [List.find?_cons_of_neg _ hx] at h
      obtain ⟨pre, post, hsplit, hpre⟩ := ih a h
      refine ⟨x :: pre, post, by simp [hsplit], ?_⟩
      intro e he
      rcases List.mem_cons.mp he with rfl | he'
      · exact Bool.of_not_eq_true hx
      · exact hpre e he'

/-- Claim C8: with a nonempty detection list and the cooldown elapsed, the
trigger fires exactly when some detection passes the eligibility
predicate, the chosen detection is the first eligible one in sequence
order, and the predicate is precisely the conjunction of the centering,
sizing and confidence conditions. -/
theorem capture_first_eligible (dets : List FaceDetection) (fw fh : ℚ)
    (last now : ℤ) (hne : dets ≠ []) (hcd : 3000 ≤ now - last) :
    (∀ det : FaceDetection,
      validFacePred fw fh det = true ↔
        ((|det.x + det.width / 2 - fw / 2| < fw * 0.2 ∧
          |det.y + det.height / 2 - fh / 2| < fw * 0.2) ∧
         (det.width ≥ fw * 0.3 ∧ det.width ≤ fw * 0.7 ∧
          det.height ≥ fw * 0.3 ∧ det.height ≤ fw * 0.7) ∧
         det.score > 0.7)) ∧
    ((∃ d ∈ dets, validFacePred fw fh d = true) →
      ∃ pre d post, dets = pre ++ d :: post ∧
        validFacePred fw fh d = true ∧
        (∀ e ∈ pre, validFacePred fw fh e = false) ∧
        dets.find? (validFacePred fw fh) = some d ∧
        captureTrigger dets fw fh last now = some now) ∧
    ((∀ d ∈ dets, validFacePred fw fh d = false) →
      captureTrigger dets fw fh last now = none) := by
  have hlen : ¬(dets.length = 0) := by simp [List.length_eq_zero, hne]
  have hcool : ¬(now - last < 3000) := not_lt.mpr hcd
  refine ⟨?_, ?_, ?_⟩
  · intro det
    simp only [validFacePred, Bool.and_eq_true, decide_eq_true_eq]
    tauto
  · intro hex
    have hfind : (dets.find? (validFacePred fw fh)).isSome := by
      rcases hex with ⟨d, hd, hvd⟩
      rcases hfs : dets.find? (validFacePred fw fh) with _ | d0
      · rw [List.find?_eq_none] at hfs
        exact absurd hvd (by simpa using hfs d hd)
      · simp
    rcases hfs : dets.find? (validFacePred fw fh) with _ | d0
    · rw [hfs] at hfind; simp at hfind
    · obtain ⟨pre, post, hsplit, hpre⟩ := find?_first_decomp _ dets d0 hfs
      refine ⟨pre, d0, post, hsplit, List.find?_some hfs, hpre, rfl, ?_⟩
      unfold captureTrigger
      rw [if_neg hlen, if_neg hcool, if_pos (by rw [hfs]; simp)]
  · intro hall
    have hfind : dets.find? (validFacePred fw fh) = none := by
      rw [List.find?_eq_none]
      intro x hx
      simp [hall x hx]
    unfold captureTrigger
    rw [if_neg hlen, if_neg hcool, if_neg (by rw [hfind]; simp)]

/-- Witness for C8: an ineligible detection followed by an eligible one,
with the cooldown elapsed. -/
theorem capture_first_eligible_witness :
    ([smallDet, goodDet] : List FaceDetection) ≠ [] ∧ (3000 : ℤ) ≤ 3000 - 0 ∧
    ((∀ det : FaceDetection,
      validFacePred 100 100 det = true ↔
        ((|det.x + det.width / 2 - 100 / 2| < 100 * 0.2 ∧
          |det.y + det.height / 2 - 100 / 2| < 100 * 0.2) ∧
         (det.width ≥ 100 * 0.3 ∧ det.width ≤ 100 * 0.7 ∧
          det.height ≥ 100 * 0.3 ∧ det.height ≤ 100 * 0.7) ∧
         det.score > 0.7)) ∧
    ((∃ d ∈ ([smallDet, goodDet] : List FaceDetection),
        validFacePred 100 100 d = true) →
      ∃ pre d post, ([smallDet, goodDet] : List FaceDetection) = pre ++ d :: post ∧
        validFacePred 100 100 d = true ∧
        (∀ e ∈ pre, validFacePred 100 100 e = false) ∧
        ([smallDet, goodDet] : List FaceDetection).find? (validFacePred 100 100)
          = some d ∧
        captureTrigger [smallDet, goodDet] 100 100 0 3000 = some 3000) ∧
    ((∀ d ∈ ([smallDet, goodDet] : List FaceDetection),
        validFacePred 100 100 d = false) →
      captureTrigger [smallDet, goodDet] 100 100 0 3000 = none)) :=
  ⟨by decide, by decide,
    capture_first_eligible [smallDet, goodDet] 100 100 0 3000
      (by decide) (by decide)⟩

/-- Claim C9: a dispatched pipeline run always exits with the busy flag
cleared, and a failing collaborator step is converted (by the model's
total catch-all, mirroring the try/catch/finally of the source) into the
error status carrying the failure message instead of an exception. -/
theorem pipeline_releases_busy_flag (bc ba : Bool) (env : PipelineEnv)
    (users : List User) (st0 : String) :
    (captureAndVerify true false bc ba env users st0).isScanning = false ∧
    ∀ msg, pipelineSteps env = Except.error msg →
      (captureAndVerify true false bc ba env users st0).status =
        "Error during verification" ∧
      (captureAndVerify true false bc ba env users st0).error = some msg := by
  cases h : pipelineSteps env with
  | error e =>
    constructor
    · simp [captureAndVerify, h]
    · intro m hm
      injection hm with h'
      subst h'
      constructor <;> simp [captureAndVerify, h]
  | ok emb =>
    constructor
    · by_cases hv : ((verifyFace emb users).1.verified &&
          (verifyFace emb users).1.userId.isSome) = true
      · simp [captureAndVerify, h, hv]
      · simp only [captureAndVerify, h]
        rw [if_neg (by simp), if_neg hv]
    · intro m hm
      simp at hm

/-- A concrete pipeline environment whose photo capture throws. -/
def failingEnv : PipelineEnv :=
  { photo := Except.error "Camera error", resizedImage := Except.ok (),
    decodedImage := Except.ok (), inference := Except.ok [] }

/-- Witness for C9: the failing-capture environment. -/
theorem pipeline_releases_busy_flag_witness :
    pipelineSteps failingEnv = Except.error "Camera error" ∧
    (captureAndVerify true false false false failingEnv [] "Processing...").isScanning
      = false ∧
    (captureAndVerify true false false false failingEnv [] "Processing...").status
      = "Error during verification" ∧
    (captureAndVerify true false false false failingEnv [] "Processing...").error
      = some "Camera error" :=
  ⟨rfl,
    (pipeline_releases_busy_flag false false failingEnv [] "Processing...").1,
    ((pipeline_releases_busy_flag false false failingEnv [] "Processing...").2
      "Camera error" rfl).1,
    ((pipeline_releases_busy_flag false false failingEnv [] "Processing...").2
      "Camera error" rfl).2⟩
